import Mathlib

/-!
Shallow embedding of the `logger` repository (src/logger.c, logger.h).

Dispatch model: the process-wide state (`logHandlers`, `logOutput`,
`initialized`) becomes an explicit `LogState`; handler function pointers
become values of an abstract `Handler` type; invoking a handler through a
dispatch slot is recorded as an `Invocation` event, so an operation's
observable behaviour is its resulting state together with the list of
handler invocations it performs.

Formatter model: the fixed-size character buffers of `logFormat` become
lists of `Char` cells; an out-of-bounds buffer access or a read through a
null pointer is undefined behaviour in the C source and is modelled by
`Option` with `none` for the undefined case.
-/

namespace LoggerC

/-- NUM_LOG_CATS from logger.h. -/
def NUM_LOG_CATS : Nat := 5

/-- MAX_CHARS_IN_LOG_CAT from logger.h. -/
def MAX_CHARS_IN_LOG_CAT : Nat := 8

/-- MAX_CHARS_IN_MSG from logger.h. -/
def MAX_CHARS_IN_MSG : Nat := 60

/-- MAX_CHARS_IN_DATE from logger.h. -/
def MAX_CHARS_IN_DATE : Nat := 30

/-- CatIndex values VERBOSE_IDX .. FATAL_IDX from logger.c. -/
def VERBOSE_IDX : Fin 5 := 0

/-- INFO_IDX from logger.c. -/
def INFO_IDX : Fin 5 := 1

/-- WARNING_IDX from logger.c. -/
def WARNING_IDX : Fin 5 := 2

/-- ERROR_IDX from logger.c. -/
def ERROR_IDX : Fin 5 := 3

/-- FATAL_IDX from logger.c. -/
def FATAL_IDX : Fin 5 := 4

/-- VALID_CATS from logger.c: for each category index, the uppercase and
lowercase spelling (UPPER_INDEX = first, LOWER_INDEX = second). -/
def VALID_CATS : Fin 5 → String × String :=
  ![("VERBOSE", "verbose"),
    ("INFO", "info"),
    ("WARNING", "warning"),
    ("ERROR", "error"),
    ("FATAL", "fatal")]

/-- The index list [0, 1, 2, 3, 4] traversed by the `for` loops in
`logger` and `setHandler`. -/
def allIdx : List (Fin 5) := [0, 1, 2, 3, 4]

/-- A handler function pointer value. The five default handlers of logger.c
are distinguished constants; `custom` stands for any user-supplied handler
installed through `setHandler`. -/
inductive Handler where
  | defaultVerbose
  | defaultInfo
  | defaultWarning
  | defaultError
  | defaultFatal
  | custom (id : Nat)
deriving DecidableEq, Repr

/-- The process-wide mutable state of logger.c: the dispatch table
`logHandlers`, the sink `logOutput` (a FILE pointer, abstracted to an
optional handle), and the `initialized` flag. -/
structure LogState where
  logHandlers : Fin 5 → Option Handler
  logOutput : Option Nat
  initialized : Bool

/-- The initial state of the translation unit:
`logHandlers = {NULL}`, `logOutput = NULL`, `initialized = 0`. -/
def initState : LogState :=
  { logHandlers := fun _ => none, logOutput := none, initialized := false }

/-- A record of one handler invocation through the dispatch table: which
slot was consulted, the handler value found there, and the `cond` and
`msg` arguments it was called with (`msg = none` models a NULL pointer). -/
structure Invocation where
  slot : Fin 5
  handler : Handler
  cond : Int
  msg : Option String
deriving DecidableEq, Repr

/-- Invocation of the handler in slot `i`, shared shape of the bodies of
`verbose`/`info`/`warning`/`error`/`fatal`:
`if (logHandlers[i] != NULL) logHandlers[i](cond, msg)`. -/
def emitAt (s : LogState) (i : Fin 5) (cond : Int) (msg : Option String) :
    List Invocation :=
  match s.logHandlers i with
  | some h => [⟨i, h, cond, msg⟩]
  | none => []

/-- verbose from logger.c. -/
def verbose (s : LogState) (cond : Int) (msg : Option String) : List Invocation :=
  emitAt s VERBOSE_IDX cond msg

/-- info from logger.c. -/
def info (s : LogState) (cond : Int) (msg : Option String) : List Invocation :=
  emitAt s INFO_IDX cond msg

/-- warning from logger.c. -/
def warning (s : LogState) (cond : Int) (msg : Option String) : List Invocation :=
  emitAt s WARNING_IDX cond msg

/-- error from logger.c. -/
def error (s : LogState) (cond : Int) (msg : Option String) : List Invocation :=
  emitAt s ERROR_IDX cond msg

/-- fatal from logger.c. -/
def fatal (s : LogState) (cond : Int) (msg : Option String) : List Invocation :=
  emitAt s FATAL_IDX cond msg

/-- The loop of `logger` (logger.c lines 79-91), translated verbatim.
The loop guard `index < NUM_LOG_CATS && !catValid` becomes structural
recursion over the remaining indices; the body's condition
`strcmp(cat, VALID_CATS[index][UPPER_INDEX]) || strcmp(cat, VALID_CATS[index][LOWER_INDEX])`
is truthy exactly when `cat` differs from the uppercase spelling OR
differs from the lowercase spelling (strcmp is nonzero on inequality);
this is kept exactly as the source writes it. Returns the final
`catValid` flag and the handler invocations performed. -/
def loggerLoop (s : LogState) (cat : String) (msg : Option String) :
    List (Fin 5) → Bool × List Invocation
  | [] => (false, [])
  | i :: rest =>
    if cat ≠ (VALID_CATS i).1 ∨ cat ≠ (VALID_CATS i).2 then
      (true, emitAt s i 1 msg)
    else
      loggerLoop s cat msg rest

/-- logger from logger.c (lines 70-99). `cat = none` and `msg = none`
model NULL arguments. Returns the handler invocations performed;
the state is not modified. -/
def logger (s : LogState) (cat : Option String) (msg : Option String) :
    List Invocation :=
  if s.initialized then
    let scanned :=
      match cat with
      | some c => loggerLoop s c msg allIdx
      | none => (false, [])
    if scanned.1 then
      scanned.2
    else
      scanned.2 ++ warning s 1 (some "Invalid category provided. Message is not logged.")
  else
    []

/-- The loop of `setHandler` (logger.c lines 148-156), translated
verbatim. Here the condition is
`!strcmp(cat, VALID_CATS[index][UPPER_INDEX]) || !strcmp(cat, VALID_CATS[index][LOWER_INDEX])`,
truthy exactly when `cat` equals the uppercase or the lowercase spelling.
Returns the final `catValid` flag and the updated handler table. -/
def setHandlerLoop (cat : String) (handler : Option Handler)
    (hs : Fin 5 → Option Handler) :
    List (Fin 5) → Bool × (Fin 5 → Option Handler)
  | [] => (false, hs)
  | i :: rest =>
    if cat = (VALID_CATS i).1 ∨ cat = (VALID_CATS i).2 then
      (true, Function.update hs i handler)
    else
      setHandlerLoop cat handler hs rest

/-- setHandler from logger.c (lines 141-165). Returns the `catValid`
result, the resulting state, and the invocations performed by the
fallback `warning` call on failure. -/
def setHandler (s : LogState) (cat : Option String) (handler : Option Handler) :
    Bool × LogState × List Invocation :=
  let scanned :=
    match cat with
    | some c =>
      if s.initialized then
        setHandlerLoop c handler s.logHandlers allIdx
      else
        (false, s.logHandlers)
    | none => (false, s.logHandlers)
  let s2 : LogState := { s with logHandlers := scanned.2 }
  if scanned.1 then
    (true, s2, [])
  else
    (false, s2, warning s2 1 (some "Invalid category provided. Handler is not set."))

/-- initLog from logger.c (lines 51-68). `dest = none` models a NULL
FILE pointer. Returns the int result (as a Bool), the resulting state,
and the invocations performed (by the setHandler calls installing the
defaults). The `atexit(closeLog)` registration has no effect on the
modelled state. -/
def initLog (s : LogState) (dest : Option Nat) : Bool × LogState × List Invocation :=
  match dest with
  | some d =>
    if !s.initialized then
      let s1 : LogState := { s with logOutput := some d, initialized := true }
      let r2 := setHandler s1 (some "VERBOSE") none
      let r3 := setHandler r2.2.1 (some "INFO") (some .defaultInfo)
      let r4 := setHandler r3.2.1 (some "WARNING") (some .defaultWarning)
      let r5 := setHandler r4.2.1 (some "ERROR") (some .defaultError)
      let r6 := setHandler r5.2.1 (some "FATAL") (some .defaultFatal)
      (r6.2.1.initialized, r6.2.1, r2.2.2 ++ r3.2.2 ++ r4.2.2 ++ r5.2.2 ++ r6.2.2)
    else
      (s.initialized, s, [])
  | none => (s.initialized, s, [])

/-- An operation against the public API of logger.c, for stating
invariants that every operation preserves. -/
inductive Op where
  | opInitLog (dest : Option Nat)
  | opSetHandler (cat : Option String) (handler : Option Handler)
  | opLogger (cat : Option String) (msg : Option String)
  | opVerbose (cond : Int) (msg : Option String)
  | opInfo (cond : Int) (msg : Option String)
  | opWarning (cond : Int) (msg : Option String)
  | opError (cond : Int) (msg : Option String)
  | opFatal (cond : Int) (msg : Option String)

/-- Running one API operation: the resulting state and the handler
invocations it performs. -/
def runOp (s : LogState) : Op → LogState × List Invocation
  | .opInitLog dest => ((initLog s dest).2.1, (initLog s dest).2.2)
  | .opSetHandler cat h => ((setHandler s cat h).2.1, (setHandler s cat h).2.2)
  | .opLogger cat msg => (s, logger s cat msg)
  | .opVerbose cond msg => (s, verbose s cond msg)
  | .opInfo cond msg => (s, info s cond msg)
  | .opWarning cond msg => (s, warning s cond msg)
  | .opError cond msg => (s, error s cond msg)
  | .opFatal cond msg => (s, fatal s cond msg)

/-- The invariant of claim C10: while the subsystem is uninitialized,
every dispatch slot is empty. -/
def HandlersClear (s : LogState) : Prop :=
  s.initialized = false → ∀ i : Fin 5, s.logHandlers i = none

/-! The formatter (`logFormat`, logger.c lines 222-268). C character
buffers become lists of `Char` cells; `'\x00'` plays the role of the NUL
terminator. -/

/-- The NUL character terminating C strings. -/
def NUL : Char := '\x00'

/-- Size in cells of a `MsgStr` buffer (`char[MAX_CHARS_IN_MSG + 2]`,
logger.h: has room for a punctuation mark and the terminator). -/
def MsgStrSize : Nat := MAX_CHARS_IN_MSG + 2

/-- Size in cells of a `LogCategory` buffer
(`char[MAX_CHARS_IN_LOG_CAT + 1]`). -/
def LogCategorySize : Nat := MAX_CHARS_IN_LOG_CAT + 1

/-- Size in cells of a `LogEntryStr` buffer
(`char[MAX_CHARS_IN_FINAL_MSG + 1]`). -/
def LogEntryStrSize : Nat :=
  MAX_CHARS_IN_MSG + MAX_CHARS_IN_DATE + MAX_CHARS_IN_LOG_CAT + 12 + 1

/-- A local array initialized from a string literal, as in
`MsgStr msgField = "(null)";`: the literal's characters followed by
zero fill up to the array size. -/
def initBuf (size : Nat) (lit : List Char) : List Char :=
  lit ++ List.replicate (size - lit.length) NUL

/-- One C buffer store `buf[i] = c`; `none` on an out-of-bounds index
(undefined behaviour). -/
def bufWrite (buf : List Char) (i : Nat) (c : Char) : Option (List Char) :=
  if i < buf.length then some (buf.set i c) else none

/-- Reading a buffer as a C string: the cells before the first NUL. -/
def cString (buf : List Char) : List Char :=
  buf.takeWhile (fun c => c ≠ NUL)

/-- strncpy(dst, src, n) where `src` is the content of a NUL-free C
string: cells 0..n-1 of `dst` become the first n characters of `src`,
NUL-padded when `src` is shorter; the remaining cells of `dst` keep
their old content. (In logFormat n = MAX_CHARS_IN_MSG = 60 and `dst` has
62 cells, so the store itself is in bounds.) -/
def strncpyList (dst src : List Char) (n : Nat) : List Char :=
  (src.take n ++ List.replicate (n - src.length) NUL) ++ dst.drop n

/-- The `msgField` computation of logFormat (logger.c lines 224 and
230-247) for a non-null `msg` with content `m`:
`MSG_NUM_CHARS = strlen(msg)`; `MsgStr msgField = "(null)";`;
`strncpy(msgField, msg, MAX_CHARS_IN_MSG);` then, when `msg`'s last
character (`msg[MSG_NUM_CHARS - 1]` — an out-of-bounds read when `m` is
empty, hence `none`) is none of '.', '!', '?':
a '.' is stored at index MSG_NUM_CHARS and a NUL at MSG_NUM_CHARS + 1
through `bufWrite`, so stores past the 62-cell buffer yield `none`.
The result is the buffer's content as a C string. -/
def msgFieldOf (m : List Char) : Option (List Char) :=
  let MSG_NUM_CHARS := m.length
  let msgField0 := initBuf MsgStrSize ("(null)".data)
  let msgField1 := strncpyList msgField0 m MAX_CHARS_IN_MSG
  match m.getLast? with
  | none => none
  | some last =>
    if last ≠ '.' ∧ last ≠ '!' ∧ last ≠ '?' then
      match bufWrite msgField1 MSG_NUM_CHARS '.' with
      | none => none
      | some f2 =>
        match bufWrite f2 (MSG_NUM_CHARS + 1) NUL with
        | none => none
        | some f3 => some (cString f3)
    else
      some (cString msgField1)

/-- The `catField` computation of logFormat (logger.c lines 229 and
232-235): `LogCategory catField = "";` then, for non-null `cat`,
`sprintf(catField, "%s:", cat)`, which stores `cat`, ':' and the
terminator into the 9-cell buffer — out of bounds (hence `none`) when
`cat` is longer than 7 characters. -/
def catFieldOf (cat : Option (List Char)) : Option (List Char) :=
  match cat with
  | none => some (cString (initBuf LogCategorySize []))
  | some c =>
    if c.length + 2 ≤ LogCategorySize then
      some (c ++ [':'])
    else
      none

/-- Left-justified padding to the field width w, as printf's `%-*s`. -/
def padField (w : Nat) (fld : List Char) : List Char :=
  fld ++ List.replicate (w - fld.length) ' '

/-- logFormat from logger.c (lines 222-268). `destPresent` models
whether `dest` is non-null; `cat` and `msg` are the contents of the two
C string arguments, `none` for NULL; `dateField` is the string strftime
produced for the current wall-clock time (empty when the clock or the
conversion failed). The outer `Option` is `none` on undefined behaviour:
`strlen(msg)` on line 224 runs before any null check, so `msg = none`
is undefined; so are the out-of-bounds buffer stores. The inner result
is the content `sprintf` left in `dest` (`none` when `dest` is null and
the final sprintf is skipped). -/
def logFormatRun (destPresent : Bool) (cat msg : Option (List Char))
    (dateField : List Char) : Option (Option (List Char)) :=
  match msg with
  | none => none
  | some m =>
    match catFieldOf cat with
    | none => none
    | some catF =>
      match msgFieldOf m with
      | none => none
      | some msgF =>
        if destPresent then
          let line :=
            dateField ++ ['\t', '\t'] ++ padField MAX_CHARS_IN_LOG_CAT catF ++
              ['\t', '\t'] ++ msgF
          if line.length + 1 ≤ LogEntryStrSize then
            some (some line)
          else
            none
        else
          some none

/-- Whether `c` equals the uppercase or the lowercase spelling of
category `i` (the correct match condition, the one `setHandler` uses). -/
def matchCat (c : String) (i : Fin 5) : Bool :=
  decide (c = (VALID_CATS i).1) || decide (c = (VALID_CATS i).2)

/-- The first category index whose spelling `c` matches, in the scan
order of `setHandler`'s loop. -/
def catIndex? (c : String) : Option (Fin 5) :=
  allIdx.find? (matchCat c)

/-- Whether `c` is one of the five category names in canonical
uppercase or lowercase spelling. -/
def isValidCat (c : String) : Bool :=
  (catIndex? c).isSome

/-- The state after a successful initialization from the pristine
state (initLog on a valid stream). -/
def sInit : LogState :=
  (initLog initState (some 0)).2.1

/-- The initialized state with a custom handler additionally installed
in the VERBOSE slot. -/
def sVerbose : LogState :=
  (setHandler sInit (some "VERBOSE") (some (.custom 7))).2.1

/-! Helper lemmas about the dispatch operations. -/

/-- The setHandler loop is a first-match search: it returns the table
updated at the first index whose spelling matches, untouched when none
matches. -/
theorem setHandlerLoop_eq_find (c : String) (h : Option Handler)
    (hs : Fin 5 → Option Handler) :
    ∀ L : List (Fin 5),
      setHandlerLoop c h hs L =
        match L.find? (matchCat c) with
        | some i => (true, Function.update hs i h)
        | none => (false, hs)
  | [] => rfl
  | i :: rest => by
    by_cases hm : c = (VALID_CATS i).1 ∨ c = (VALID_CATS i).2
    · have hb : matchCat c i = true := by
        simpa [matchCat, Bool.or_eq_true, decide_eq_true_eq] using hm
      simp only [setHandlerLoop, if_pos hm, List.find?_cons_of_pos _ hb]
    · have hb : ¬ matchCat c i = true := by
        simpa [matchCat, Bool.or_eq_true, decide_eq_true_eq] using hm
      simp only [setHandlerLoop, if_neg hm, List.find?_cons_of_neg _ hb]
      exact setHandlerLoop_eq_find c h hs rest

/-- A found category index really matches the searched spelling. -/
theorem catIndex?_matches {c : String} {i : Fin 5} (hfound : catIndex? c = some i) :
    c = (VALID_CATS i).1 ∨ c = (VALID_CATS i).2 := by
  have := List.find?_some hfound
  simpa [matchCat, Bool.or_eq_true, decide_eq_true_eq] using this

/-- Case analysis for setHandler on a non-null category name: with the
subsystem initialized and a matching spelling it updates the table at
the matched index and succeeds silently; in every other case the state
is unchanged and the fallback warning emit runs. -/
theorem setHandler_eq_cases (s : LogState) (c : String) (h : Option Handler) :
    setHandler s (some c) h =
      if s.initialized = true then
        match catIndex? c with
        | some i =>
          (true, { s with logHandlers := Function.update s.logHandlers i h }, [])
        | none =>
          (false, s,
            emitAt s WARNING_IDX 1 (some "Invalid category provided. Handler is not set."))
      else
        (false, s,
          emitAt s WARNING_IDX 1 (some "Invalid category provided. Handler is not set.")) := by
  obtain ⟨hs, out, init⟩ := s
  cases init
  · rfl
  · simp only [setHandler, setHandlerLoop_eq_find c h hs allIdx]
    cases hfind : catIndex? c with
    | some i =>
      simp only [catIndex?] at hfind
      simp [hfind]
    | none =>
      simp only [catIndex?] at hfind
      simp [hfind, warning, emitAt, WARNING_IDX]

/-- setHandler never changes the initialized flag. -/
theorem setHandler_state_initialized (s : LogState) (cat : Option String)
    (h : Option Handler) :
    (setHandler s cat h).2.1.initialized = s.initialized := by
  simp only [setHandler]
  split <;> split <;> rfl

/-! The claims. -/

/-- C5: initLog returns whether the subsystem is initialized after the
call: a first call with a non-null stream records the stream, marks the
subsystem initialized, and returns true; a second call with a valid
stream is a no-op that still returns true; a call with a null stream
changes no state and returns the prior initialized status. -/
theorem C5_initLog_returns_initialized (s : LogState) (d : Nat) :
    ((initLog s (some d)).1 = (initLog s (some d)).2.1.initialized ∧
     (initLog s none).1 = (initLog s none).2.1.initialized) ∧
    (s.initialized = false →
      (initLog s (some d)).2.1.initialized = true ∧
      (initLog s (some d)).2.1.logOutput = some d ∧
      (initLog s (some d)).1 = true) ∧
    (s.initialized = true →
      (initLog s (some d)).2.1 = s ∧ (initLog s (some d)).1 = true) ∧
    ((initLog s none).2.1 = s ∧ (initLog s none).1 = s.initialized) := by
  obtain ⟨hs, out, init⟩ := s
  cases init
  · refine ⟨⟨rfl, rfl⟩, fun _ => ⟨rfl, rfl, rfl⟩, fun hcon => ?_, rfl, rfl⟩
    exact Bool.noConfusion hcon
  · refine ⟨⟨rfl, rfl⟩, fun hcon => ?_, fun _ => ⟨rfl, rfl⟩, rfl, rfl⟩
    exact Bool.noConfusion hcon

/-- Witness for C5 at the pristine state: the first call with a valid
stream initializes, records the stream and returns true, and a null
stream at the pristine state reports false. -/
theorem C5_witness :
    (initLog initState (some 3)).2.1.initialized = true ∧
    (initLog initState (some 3)).2.1.logOutput = some 3 ∧
    (initLog initState (some 3)).1 = true :=
  (C5_initLog_returns_initialized initState 3).2.1 rfl

/-- C7: immediately after a successful initialization, the VERBOSE slot
holds no handler and the INFO, WARNING, ERROR and FATAL slots hold
their respective default handlers. -/
theorem C7_default_handlers (s : LogState) (d : Nat)
    (hinit : s.initialized = false) :
    (initLog s (some d)).1 = true ∧
    (initLog s (some d)).2.1.logHandlers VERBOSE_IDX = none ∧
    (initLog s (some d)).2.1.logHandlers INFO_IDX = some Handler.defaultInfo ∧
    (initLog s (some d)).2.1.logHandlers WARNING_IDX = some Handler.defaultWarning ∧
    (initLog s (some d)).2.1.logHandlers ERROR_IDX = some Handler.defaultError ∧
    (initLog s (some d)).2.1.logHandlers FATAL_IDX = some Handler.defaultFatal := by
  obtain ⟨hs, out, init⟩ := s
  cases hinit
  exact ⟨rfl, rfl, rfl, rfl, rfl, rfl⟩

/-- Witness for C7: the default dispatch table after initializing the
pristine state. -/
theorem C7_witness :
    (initLog initState (some 0)).1 = true ∧
    (initLog initState (some 0)).2.1.logHandlers VERBOSE_IDX = none ∧
    (initLog initState (some 0)).2.1.logHandlers INFO_IDX = some Handler.defaultInfo ∧
    (initLog initState (some 0)).2.1.logHandlers WARNING_IDX = some Handler.defaultWarning ∧
    (initLog initState (some 0)).2.1.logHandlers ERROR_IDX = some Handler.defaultError ∧
    (initLog initState (some 0)).2.1.logHandlers FATAL_IDX = some Handler.defaultFatal :=
  C7_default_handlers initState 0 rfl

/-- C6: setHandler succeeds exactly when the subsystem is initialized
and the name matches one of the five categories in canonical uppercase
or lowercase spelling; on success it replaces the matched category's
slot and touches no other slot; in every other case it changes no
state, runs the fallback warning emit with the text
"Invalid category provided. Handler is not set.", and returns false. -/
theorem C6_setHandler_contract (s : LogState) (c : String) (h : Option Handler) :
    (((setHandler s (some c) h).1 = true) ↔
      (s.initialized = true ∧ isValidCat c = true)) ∧
    ((setHandler s (some c) h).1 = true →
      ∃ i : Fin 5, (c = (VALID_CATS i).1 ∨ c = (VALID_CATS i).2) ∧
        (setHandler s (some c) h).2.1.logHandlers i = h ∧
        ∀ j : Fin 5, j ≠ i →
          (setHandler s (some c) h).2.1.logHandlers j = s.logHandlers j) ∧
    ((setHandler s (some c) h).1 = false →
      (setHandler s (some c) h).2.1 = s ∧
      (setHandler s (some c) h).2.2 =
        emitAt s WARNING_IDX 1 (some "Invalid category provided. Handler is not set.")) := by
  rw [setHandler_eq_cases]
  by_cases hi : s.initialized = true
  · rw [if_pos hi]
    cases hfind : catIndex? c with
    | some i =>
      refine ⟨by simp [hi, isValidCat, hfind], fun _ => ?_, by simp⟩
      exact ⟨i, catIndex?_matches hfind, Function.update_same i h s.logHandlers,
        fun j hj => Function.update_noteq hj h s.logHandlers⟩
    | none =>
      exact ⟨by simp [isValidCat, hfind], by simp, fun _ => ⟨rfl, rfl⟩⟩
  · rw [if_neg hi]
    exact ⟨by simp [hi], by simp, fun _ => ⟨rfl, rfl⟩⟩

/-- Witness for C6: in the initialized state, setHandler on the
lowercase spelling "error" succeeds; at the pristine (uninitialized)
state, setHandler on the valid name "ERROR" fails. -/
theorem C6_witness :
    ((setHandler sInit (some "error") (some (Handler.custom 9))).1 = true) ∧
    ((setHandler initState (some "ERROR") (some (Handler.custom 9))).1 = false →
      (setHandler initState (some "ERROR") (some (Handler.custom 9))).2.1 = initState ∧
      (setHandler initState (some "ERROR") (some (Handler.custom 9))).2.2 =
        emitAt initState WARNING_IDX 1
          (some "Invalid category provided. Handler is not set.")) :=
  ⟨(C6_setHandler_contract sInit "error" (some (Handler.custom 9))).1.mpr
      ⟨by decide, by decide⟩,
   (C6_setHandler_contract initState "ERROR" (some (Handler.custom 9))).2.2⟩

/-- C9: each of the five per-category emit functions invokes its fixed
category's handler with exactly the given condition and message when
the slot holds one, does nothing when the slot is empty, and behaves
identically whatever the value of the initialized flag. -/
theorem C9_per_category_emits (s : LogState) (cond : Int) (msg : Option String) :
    ((∀ h, s.logHandlers VERBOSE_IDX = some h →
        verbose s cond msg = [⟨VERBOSE_IDX, h, cond, msg⟩]) ∧
     (s.logHandlers VERBOSE_IDX = none → verbose s cond msg = []) ∧
     (∀ b, verbose { s with initialized := b } cond msg = verbose s cond msg)) ∧
    ((∀ h, s.logHandlers INFO_IDX = some h →
        info s cond msg = [⟨INFO_IDX, h, cond, msg⟩]) ∧
     (s.logHandlers INFO_IDX = none → info s cond msg = []) ∧
     (∀ b, info { s with initialized := b } cond msg = info s cond msg)) ∧
    ((∀ h, s.logHandlers WARNING_IDX = some h →
        warning s cond msg = [⟨WARNING_IDX, h, cond, msg⟩]) ∧
     (s.logHandlers WARNING_IDX = none → warning s cond msg = []) ∧
     (∀ b, warning { s with initialized := b } cond msg = warning s cond msg)) ∧
    ((∀ h, s.logHandlers ERROR_IDX = some h →
        error s cond msg = [⟨ERROR_IDX, h, cond, msg⟩]) ∧
     (s.logHandlers ERROR_IDX = none → error s cond msg = []) ∧
     (∀ b, error { s with initialized := b } cond msg = error s cond msg)) ∧
    ((∀ h, s.logHandlers FATAL_IDX = some h →
        fatal s cond msg = [⟨FATAL_IDX, h, cond, msg⟩]) ∧
     (s.logHandlers FATAL_IDX = none → fatal s cond msg = []) ∧
     (∀ b, fatal { s with initialized := b } cond msg = fatal s cond msg)) := by
  refine
    ⟨⟨fun h hh => ?_, fun hh => ?_, fun _ => rfl⟩,
     ⟨fun h hh => ?_, fun hh => ?_, fun _ => rfl⟩,
     ⟨fun h hh => ?_, fun hh => ?_, fun _ => rfl⟩,
     ⟨fun h hh => ?_, fun hh => ?_, fun _ => rfl⟩,
     ⟨fun h hh => ?_, fun hh => ?_, fun _ => rfl⟩⟩ <;>
    simp [verbose, info, warning, error, fatal, emitAt, hh]

/-- Witness for C9 in the initialized state: the installed default INFO
handler is invoked with the given condition and message, and the empty
VERBOSE slot yields no invocation. -/
theorem C9_witness :
    info sInit 1 (some "Hello") =
      [⟨INFO_IDX, Handler.defaultInfo, 1, some "Hello"⟩] ∧
    verbose sInit 1 (some "Hello") = [] :=
  ⟨((C9_per_category_emits sInit 1 (some "Hello")).2.1.1
      Handler.defaultInfo (by decide)),
   ((C9_per_category_emits sInit 1 (some "Hello")).1.2.1 (by decide))⟩

/-- C10: while the initialized flag is false every dispatch slot is
empty; this holds of the pristine state and is preserved by every API
operation, and under it every emit function (the five per-category ones
included, though they skip the initialized check) and the generic
logger produce no handler invocation before initialization. -/
theorem C10_uninitialized_invariant :
    HandlersClear initState ∧
    (∀ (s : LogState) (op : Op), HandlersClear s → HandlersClear (runOp s op).1) ∧
    (∀ s : LogState, HandlersClear s → s.initialized = false →
      ∀ (cond : Int) (cat msg : Option String),
        verbose s cond msg = [] ∧ info s cond msg = [] ∧
        warning s cond msg = [] ∧ error s cond msg = [] ∧
        fatal s cond msg = [] ∧ logger s cat msg = []) := by
  refine ⟨fun _ _ => rfl, fun s op hinv => ?_, fun s hinv hfalse cond cat msg => ?_⟩
  · obtain ⟨hs, out, init⟩ := s
    cases op with
    | opInitLog dest =>
      cases dest with
      | none => exact hinv
      | some d =>
        cases init
        · intro hcon
          exact absurd hcon (by exact fun hcon => Bool.noConfusion hcon)
        · exact hinv
    | opSetHandler cat h =>
      cases init
      · cases cat with
        | none => exact hinv
        | some c => exact hinv
      · intro hcon
        have : (runOp ⟨hs, out, true⟩ (Op.opSetHandler cat h)).1.initialized = true :=
          setHandler_state_initialized ⟨hs, out, true⟩ cat h
        rw [this] at hcon
        exact Bool.noConfusion hcon
    | opLogger cat msg => exact hinv
    | opVerbose cond msg => exact hinv
    | opInfo cond msg => exact hinv
    | opWarning cond msg => exact hinv
    | opError cond msg => exact hinv
    | opFatal cond msg => exact hinv
  · have hclear := hinv hfalse
    refine ⟨?_, ?_, ?_, ?_, ?_, ?_⟩
    · simp [verbose, emitAt, hclear VERBOSE_IDX]
    · simp [info, emitAt, hclear INFO_IDX]
    · simp [warning, emitAt, hclear WARNING_IDX]
    · simp [error, emitAt, hclear ERROR_IDX]
    · simp [fatal, emitAt, hclear FATAL_IDX]
    · simp [logger, hfalse]

/-- Witness for C10: the invariant at the pristine state is preserved
by a setHandler attempt, and at the pristine state every emit is
silent. -/
theorem C10_witness :
    HandlersClear (runOp initState (Op.opSetHandler (some "INFO") (some (Handler.custom 1)))).1 ∧
    verbose initState 1 (some "x") = [] ∧ info initState 1 (some "x") = [] ∧
    warning initState 1 (some "x") = [] ∧ error initState 1 (some "x") = [] ∧
    fatal initState 1 (some "x") = [] ∧ logger initState (some "INFO") (some "x") = [] :=
  ⟨C10_uninitialized_invariant.2.1 initState
      (Op.opSetHandler (some "INFO") (some (Handler.custom 1))) (fun _ _ => rfl),
   C10_uninitialized_invariant.2.2 initState (fun _ _ => rfl) rfl 1
      (some "INFO") (some "x")⟩

/-- C1 (refuted by the code): in the initialized state the INFO slot
holds its default handler, yet `logger("INFO", "test")` invokes no
handler at all; and once a handler is installed in the VERBOSE slot,
`logger("INFO", "test")` invokes that VERBOSE-slot handler — a
different category's handler — because the strcmp-based match
condition on logger.c line 81 is satisfied by every name at the first
scanned category. -/
theorem C1_logger_dispatch_bug :
    sInit.initialized = true ∧
    sInit.logHandlers INFO_IDX = some Handler.defaultInfo ∧
    logger sInit (some "INFO") (some "test") = [] ∧
    sVerbose.logHandlers INFO_IDX = some Handler.defaultInfo ∧
    logger sVerbose (some "INFO") (some "test") =
      [⟨VERBOSE_IDX, Handler.custom 7, 1, some "test"⟩] := by
  decide

/-- C2 (refuted by the code): in the initialized state the WARNING slot
holds its default handler, yet `logger("DEBUG", "x")` emits no WARNING
invocation at all; and with a handler installed in the VERBOSE slot the
invalid name "DEBUG" is treated as a match, so that handler is invoked
with the original message instead of the message being dropped with a
warning. -/
theorem C2_invalid_category_warning_bug :
    sInit.initialized = true ∧
    sInit.logHandlers WARNING_IDX = some Handler.defaultWarning ∧
    logger sInit (some "DEBUG") (some "x") = [] ∧
    logger sVerbose (some "DEBUG") (some "x") =
      [⟨VERBOSE_IDX, Handler.custom 7, 1, some "x"⟩] := by
  decide

/-- C3 (refuted by the code): on a 61-character message that does not
end in terminal punctuation, logFormat's punctuation handling indexes
the message buffer with the untruncated length (logger.c lines
244-245), storing the terminator at cell 62 of the 62-cell MsgStr —
out of bounds, so the claimed truncate-before-punctuation bound on the
writes fails; and on a 61-character message that does end in '.', no
truncation-before-punctuation happens either: the rendered field is the
bare 60-character cut, its trailing '.' lost. -/
theorem C3_truncation_bug :
    (List.replicate 61 'a').length = MAX_CHARS_IN_MSG + 1 ∧
    msgFieldOf (List.replicate 61 'a') = none ∧
    logFormatRun true (some ("INFO".data)) (some (List.replicate 61 'a')) [] = none ∧
    msgFieldOf (List.replicate 60 'a' ++ ['.']) = some (List.replicate 60 'a') := by
  decide

/-- C4 (refuted by the code): logFormat evaluates
`strlen(msg)` (logger.c line 224) before its `msg != NULL` check, so a
null message is undefined behaviour for every destination buffer,
category label and date — never the claimed "(null)" substitution. -/
theorem C4_null_message_ub (destPresent : Bool) (cat : Option (List Char))
    (dateField : List Char) :
    logFormatRun destPresent cat none dateField = none :=
  rfl

/-- C8 counterexample: the 61-character message of sixty 'a's followed
by '.' ends in terminal punctuation, yet its rendered message field is
not the unmodified message text (it is the bare 60-character
truncation). -/
theorem C8_counterexample :
    (List.replicate 60 'a' ++ ['.']).getLast? = some '.' ∧
    msgFieldOf (List.replicate 60 'a' ++ ['.']) ≠
      some (List.replicate 60 'a' ++ ['.']) := by
  decide

/-- Reading a NUL-free run followed by NUL padding as a C string gives
back the run. -/
theorem cString_append_replicate (l : List Char) (hl : NUL ∉ l) (k : Nat) :
    cString (l ++ List.replicate (k + 1) NUL) = l := by
  induction l with
  | nil =>
    show (List.replicate (k + 1) NUL).takeWhile (fun c => c ≠ NUL) = []
    rw [List.replicate_succ, List.takeWhile_cons_of_neg (by simp)]
  | cons a t ih =>
    have ht : NUL ∉ t := fun hm => hl (List.mem_cons_of_mem a hm)
    have ha : a ≠ NUL := fun he => hl (by simp [he])
    show ((a :: (t ++ List.replicate (k + 1) NUL)).takeWhile fun c => c ≠ NUL) = a :: t
    rw [List.takeWhile_cons_of_pos (by simpa using ha)]
    exact congrArg (a :: ·) (ih ht)

/-- Characterization of msgFieldOf on messages that fit in the buffer:
for a nonempty NUL-free message of at most MAX_CHARS_IN_MSG characters,
the rendered field is the message itself when its last character is
terminal punctuation, and the message with exactly one '.' appended
otherwise. -/
theorem msgFieldOf_short (m : List Char) (c : Char) (hlast : m.getLast? = some c)
    (hlen : m.length ≤ MAX_CHARS_IN_MSG) (hnul : NUL ∉ m) :
    msgFieldOf m = if c ≠ '.' ∧ c ≠ '!' ∧ c ≠ '?' then some (m ++ ['.']) else some m := by
  have hbuf : strncpyList (initBuf MsgStrSize ("(null)".data)) m MAX_CHARS_IN_MSG
      = m ++ List.replicate (MAX_CHARS_IN_MSG - m.length + 2) NUL := by
    unfold strncpyList
    have hdrop : (initBuf MsgStrSize ("(null)".data)).drop MAX_CHARS_IN_MSG
        = List.replicate 2 NUL := by decide
    rw [List.take_of_length_le hlen, hdrop, List.append_assoc, ← List.replicate_add]
  simp only [msgFieldOf, hlast, hbuf]
  by_cases hc : c ≠ '.' ∧ c ≠ '!' ∧ c ≠ '?'
  · rw [if_pos hc, if_pos hc]
    have h1 : bufWrite (m ++ List.replicate (MAX_CHARS_IN_MSG - m.length + 2) NUL)
        m.length '.' =
        some (m ++ '.' :: List.replicate (MAX_CHARS_IN_MSG - m.length + 1) NUL) := by
      unfold bufWrite
      rw [if_pos (by simp)]
      rw [List.set_append_right _ _ (le_refl m.length), Nat.sub_self,
        show MAX_CHARS_IN_MSG - m.length + 2 = (MAX_CHARS_IN_MSG - m.length + 1) + 1 from rfl,
        List.replicate_succ, List.set_cons_zero]
    have h2 : bufWrite (m ++ '.' :: List.replicate (MAX_CHARS_IN_MSG - m.length + 1) NUL)
        (m.length + 1) NUL =
        some (m ++ '.' :: List.replicate (MAX_CHARS_IN_MSG - m.length + 1) NUL) := by
      unfold bufWrite
      rw [if_pos (by simp)]
      rw [List.set_append_right _ _ (Nat.le_add_right m.length 1),
        show m.length + 1 - m.length = 1 from by omega,
        List.set_cons_succ, List.replicate_succ, List.set_cons_zero, ← List.replicate_succ]
    simp only [h1, h2]
    have h3 : cString (m ++ '.' :: List.replicate (MAX_CHARS_IN_MSG - m.length + 1) NUL)
        = m ++ ['.'] := by
      have hnul2 : NUL ∉ m ++ ['.'] := by
        simp only [List.mem_append, List.mem_singleton]
        rintro (h | h)
        · exact hnul h
        · exact absurd h (by decide)
      have := cString_append_replicate (m ++ ['.']) hnul2 (MAX_CHARS_IN_MSG - m.length)
      rwa [List.append_assoc] at this
    rw [h3]
  · rw [if_neg hc, if_neg hc]
    rw [show MAX_CHARS_IN_MSG - m.length + 2 = (MAX_CHARS_IN_MSG - m.length + 1) + 1 from rfl,
      cString_append_replicate m hnul]

/-- C8 (amended): for every nonempty message containing no NUL byte and
no longer than the maximum message length, a message whose last
character is '.', '!' or '?' is rendered with its text unmodified, and
a message ending in any other character is rendered with exactly one
'.' appended and nothing else changed. (The original claim quantified
over every message; messages longer than the maximum are truncated or
hit out-of-bounds stores — see the counterexample and C3 — and the
empty message makes logFormat read msg[-1], out of bounds.) -/
theorem C8_punctuation_rule (m : List Char) (c : Char) (hlast : m.getLast? = some c)
    (hlen : m.length ≤ MAX_CHARS_IN_MSG) (hnul : NUL ∉ m) :
    ((c = '.' ∨ c = '!' ∨ c = '?') → msgFieldOf m = some m) ∧
    ((c ≠ '.' ∧ c ≠ '!' ∧ c ≠ '?') → msgFieldOf m = some (m ++ ['.'])) := by
  constructor
  · intro hp
    rw [msgFieldOf_short m c hlast hlen hnul, if_neg (by tauto)]
  · intro hq
    rw [msgFieldOf_short m c hlast hlen hnul, if_pos hq]

/-- Witness for C8 (amended): "Hello!" is rendered unmodified, and
"Hello" gains exactly one trailing '.'. -/
theorem C8_witness :
    msgFieldOf ("Hello!".data) = some ("Hello!".data) ∧
    msgFieldOf ("Hello".data) = some ("Hello".data ++ ['.']) :=
  ⟨(C8_punctuation_rule ("Hello!".data) '!' (by decide) (by decide) (by decide)).1
      (Or.inr (Or.inl rfl)),
   (C8_punctuation_rule ("Hello".data) 'o' (by decide) (by decide) (by decide)).2
      (by decide)⟩

end LoggerC
